import Mathlib

/-!
Verification of the `html-to-pdf-service/app.py` request handler
(`convert_html_to_pdf`): a Flask endpoint that receives JSON
`\x7b "html": ... \x7d`, stages the HTML to a temp file, invokes
`wkhtmltopdf` through `xvfb-run` as a subprocess, classifies the outcome,
streams the PDF back, and cleans both temp files up in a `finally` block.

The embedding below mirrors the source line by line: Python JSON values,
Python truthiness, the exceptions the handler body can raise
(`BadRequest` from `request.get_json`, `TypeError` from slicing or from
`f.write`, `AttributeError` from `.get` on a non-dict), the filesystem as an
association list of paths to byte contents, the subprocess call descriptor
(which carries no timeout, exactly as the source passes none), and the
`try/except/finally` control flow of the handler.
-/

set_option autoImplicit false

namespace HtmlToPdf

/-- Python values delivered by Flask when parsing a JSON request body. -/
inductive Json where
  | null
  | bool (b : Bool)
  | num (n : Int)
  | str (s : String)
  | arr (elems : List Json)
  | obj (fields : List (String × Json))

/-- Python truthiness of a JSON value, as tested by `if not data` (line 29)
and `if not html_content` (line 36). -/
def Json.isTruthy : Json → Bool
  | .null => false
  | .bool b => b
  | .num n => n != 0
  | .str s => !s.isEmpty
  | .arr xs => !xs.isEmpty
  | .obj kvs => !kvs.isEmpty

/-- The request body as the Flask layer sees it: no JSON content at all,
a body that claims to be JSON but fails to parse, or a parsed JSON value. -/
inductive RequestBody where
  | noJson
  | malformed
  | json (data : Json)

/-- Python exceptions the handler body can raise, each carrying the message
text that `f"An internal server error occurred: \x7be\x7d"` (line 142)
interpolates. -/
inductive PyExn where
  | badRequest (msg : String)
  | typeError (msg : String)
  | attrError (msg : String)
deriving DecidableEq, Repr

/-- The message text of an exception, as `str(e)` renders it. -/
def PyExn.message : PyExn → String
  | .badRequest m => m
  | .typeError m => m
  | .attrError m => m

/-- Models `request.get_json()` (line 28): `None` when the request carries
no JSON content, raises `BadRequest` when the body claims to be JSON but
fails to parse, otherwise the parsed value. -/
def getJson : RequestBody → Except PyExn (Option Json)
  | .noJson => .ok none
  | .malformed => .error (.badRequest "400 Bad Request: Failed to decode JSON object")
  | .json d => .ok (some d)

/-- Whether the string `s` contains `"html"` as a substring (Python
`"html" in s` when `s` is a string). -/
def strContainsHtml (s : String) : Bool := (s.splitOn "html").length > 1

/-- Python equality of a JSON value against the string `"html"`: true only
for the equal string (no other JSON type compares equal to a string). -/
def pyEqStrHtml : Json → Bool
  | .str s => s == "html"
  | _ => false

/-- Models the Python membership test `\x27html\x27 in data` (line 29):
key membership for dicts, element membership for lists, substring test for
strings, and a `TypeError` for values that do not support `in`. -/
def pyContainsHtmlKey : Json → Except PyExn Bool
  | .obj kvs => .ok (kvs.any (fun kv => kv.1 == "html"))
  | .arr xs => .ok (xs.any pyEqStrHtml)
  | .str s => .ok (strContainsHtml s)
  | .num _ => .error (.typeError "argument of type \x27int\x27 is not iterable")
  | .bool _ => .error (.typeError "argument of type \x27bool\x27 is not iterable")
  | .null => .error (.typeError "argument of type \x27NoneType\x27 is not iterable")

/-- Models `data.get(\x27html\x27)` (line 35): dictionary lookup returning
`None` for a missing key, and an `AttributeError` when `data` is not a
dict (possible when it is a list or string that passed the `in` test). -/
def pyGetHtml : Json → Except PyExn Json
  | .obj kvs => .ok (((kvs.find? (fun kv => kv.1 == "html")).map (fun kv => kv.2)).getD .null)
  | .arr _ => .error (.attrError "\x27list\x27 object has no attribute \x27get\x27")
  | .str _ => .error (.attrError "\x27str\x27 object has no attribute \x27get\x27")
  | .num _ => .error (.attrError "\x27int\x27 object has no attribute \x27get\x27")
  | .bool _ => .error (.attrError "\x27bool\x27 object has no attribute \x27get\x27")
  | .null => .error (.attrError "\x27NoneType\x27 object has no attribute \x27get\x27")

/-- Models the debug slice `html_content[:200]` (line 42): slicing works on
strings and lists, and raises a `TypeError` on numbers, booleans and dicts. -/
def pySlice200 : Json → Except PyExn Json
  | .str s => .ok (.str (s.take 200))
  | .arr xs => .ok (.arr (xs.take 200))
  | .num _ => .error (.typeError "\x27int\x27 object is not subscriptable")
  | .bool _ => .error (.typeError "\x27bool\x27 object is not subscriptable")
  | .obj _ => .error (.typeError "unhashable type: \x27slice\x27")
  | .null => .error (.typeError "\x27NoneType\x27 object is not subscriptable")

/-- The filesystem visible to the handler: an association of paths to byte
contents. `tempfile.mkstemp` creates an entry, `os.remove` deletes it. -/
def FS : Type := List (String × List Nat)

instance : DecidableEq FS := by unfold FS; infer_instance

/-- Models `os.path.exists` for the scratch paths. -/
def FS.pathExists (fs : FS) (p : String) : Bool := fs.any (fun e => e.1 == p)

/-- The bytes stored at a path (empty when the path does not exist). -/
def FS.read (fs : FS) (p : String) : List Nat :=
  (((fs.find? (fun e => e.1 == p)).map (fun e => e.2)).getD [])

/-- Models `os.path.getsize` for the output artifact. -/
def FS.getsize (fs : FS) (p : String) : Nat := (fs.read p).length

/-- Models `os.remove`: deletes every entry at the path. -/
def FS.remove (fs : FS) (p : String) : FS := fs.filter (fun e => e.1 != p)

/-- Writing a file: replaces any previous content at the path. -/
def FS.write (fs : FS) (p : String) (content : List Nat) : FS :=
  (p, content) :: fs.remove p

/-- UTF-8 encoding of a string, as `open(path, "w", encoding="utf-8")`
followed by `f.write` stores it (line 58). -/
def encodeUtf8 (s : String) : List Nat := s.toUTF8.toList.map (fun b => b.toNat)

/-- Exit code and captured streams of the finished renderer process
(`subprocess.run` result, line 90). -/
structure RenderOutcome where
  returncode : Int
  stdout : String
  stderr : String
deriving DecidableEq, Repr

/-- Behaviour of the external `wkhtmltopdf` renderer for this request: it
either terminates, with a given outcome and optionally writing bytes to the
output path, or it hangs forever (the spec names malformed and
resource-referencing input as causes). -/
inductive RendererBehavior where
  | terminates (outcome : RenderOutcome) (written : Option (List Nat))
  | hangs

/-- The descriptor of one `subprocess.run` invocation: argument vector and
the keyword arguments the source passes (lines 87-90). The source passes
`capture_output=True, text=True` and no `timeout` keyword. -/
structure SubprocessCall where
  args : List String
  captureOutput : Bool
  text : Bool
  timeout : Option Nat

/-- The exact command list built at lines 69-82. -/
def rendererCommand (htmlPath pdfPath : String) : List String :=
  ["xvfb-run",
   "--auto-servernum",
   "--server-args=\"-screen 0, 1024x768x24\"",
   "wkhtmltopdf",
   "--encoding", "utf-8",
   "--enable-local-file-access",
   htmlPath,
   pdfPath]

/-- The `subprocess.run` call the source makes at line 90: note
`timeout := none`, faithfully reflecting that the source passes no
timeout keyword. -/
def rendererCall (htmlPath pdfPath : String) : SubprocessCall :=
  { args := rendererCommand htmlPath pdfPath
    captureOutput := true
    text := true
    timeout := none }

/-- Executing the subprocess call against a renderer behaviour. A call with
no timeout on a hanging renderer never returns (`none`); a terminating
renderer yields its outcome and its effect on the output path. -/
def runSubprocess (call : SubprocessCall) (behavior : RendererBehavior)
    (fs : FS) (outPath : String) : Option (RenderOutcome × FS) :=
  match behavior with
  | .hangs =>
      match call.timeout with
      | none => none
      | some _ => none
  | .terminates outcome written =>
      match written with
      | some bs => some (outcome, fs.write outPath bs)
      | none => some (outcome, fs)

/-- HTTP responses the handler produces: `jsonify(...), status` or
`send_file(...)`. -/
inductive Response where
  | jsonResp (status : Nat) (fields : List (String × Json))
  | fileResp (status : Nat) (mimetype : String) (body : List Nat)
      (asAttachment : Bool) (downloadName : String)

/-- The HTTP status of a response. -/
def Response.status : Response → Nat
  | .jsonResp st _ => st
  | .fileResp st _ _ _ _ => st

/-- The JSON field names of a response body (empty for a file response). -/
def Response.fieldNames : Response → List String
  | .jsonResp _ fields => fields.map (fun kv => kv.1)
  | .fileResp _ _ _ _ _ => []

/-- Diagnostic log events the handler emits that the contracts care about:
the traceback printed by the `except` clause (line 139) and the message
printed when removing a scratch file raises `OSError` (lines 154 and 163). -/
inductive LogEntry where
  | tracebackPrinted (e : PyExn)
  | cleanupError (path : String)
deriving DecidableEq, Repr

/-- The per-request environment: the two fresh paths `tempfile.mkstemp`
returns, the behaviour of the external renderer, and which paths
`os.remove` would fail on with an `OSError` (an environment effect such as
a concurrent deletion or a permission change). -/
structure Env where
  htmlPath : String
  pdfPath : String
  renderer : RendererBehavior
  removeFails : String → Bool

/-- The state at the end of the `try` body: its result (a response or a
raised exception), the filesystem, and the values of the
`temp_html_file_path` and `temp_pdf_file_path` variables (lines 23-24,
assigned at lines 48 and 50). -/
structure TryResult where
  result : Except PyExn Response
  fs : FS
  tempHtml : Option String
  tempPdf : Option String

/-- The body of the `try` block (lines 26-132), step by step:
`request.get_json`, the two validation checks, the debug slice, the two
`mkstemp` calls, the UTF-8 write of the HTML, the subprocess invocation,
and the classification of its outcome. Returns `none` when the subprocess
call blocks forever (hanging renderer, no timeout). -/
def tryBody (env : Env) (body : RequestBody) (fs0 : FS) : Option TryResult :=
  match getJson body with
  | .error e => some ⟨.error e, fs0, none, none⟩
  | .ok data? =>
    let dataTruthy : Bool := match data? with
      | none => false
      | some d => d.isTruthy
    if !dataTruthy then
      some ⟨.ok (.jsonResp 400
        [("error", .str "Invalid request, JSON body with \x27html\x27 key is required")]),
        fs0, none, none⟩
    else
      let data := data?.getD .null
      match pyContainsHtmlKey data with
      | .error e => some ⟨.error e, fs0, none, none⟩
      | .ok mem =>
        if !mem then
          some ⟨.ok (.jsonResp 400
            [("error", .str "Invalid request, JSON body with \x27html\x27 key is required")]),
            fs0, none, none⟩
        else
          match pyGetHtml data with
          | .error e => some ⟨.error e, fs0, none, none⟩
          | .ok html_content =>
            if !html_content.isTruthy then
              some ⟨.ok (.jsonResp 400
                [("error", .str "\x27html\x27 key is present but value is empty or null")]),
                fs0, none, none⟩
            else
              match pySlice200 html_content with
              | .error e => some ⟨.error e, fs0, none, none⟩
              | .ok _ =>
                let fs1 := fs0.write env.htmlPath []
                let fs2 := fs1.write env.pdfPath []
                match html_content with
                | .str s =>
                  let fs3 := fs2.write env.htmlPath (encodeUtf8 s)
                  match runSubprocess (rendererCall env.htmlPath env.pdfPath)
                      env.renderer fs3 env.pdfPath with
                  | none => none
                  | some (result, fs4) =>
                    if result.returncode != 0 then
                      some ⟨.ok (.jsonResp 500
                        [("error", .str "PDF conversion failed"),
                         ("details", .str result.stderr),
                         ("command_output", .str result.stdout)]),
                        fs4, some env.htmlPath, some env.pdfPath⟩
                    else if !(fs4.pathExists env.pdfPath) || fs4.getsize env.pdfPath == 0 then
                      some ⟨.ok (.jsonResp 500
                        [("error", .str
                           "PDF conversion command succeeded, but output file is missing or empty"),
                         ("details", .str ("Output file path: " ++ env.pdfPath)),
                         ("command_output_stderr", .str result.stderr),
                         ("command_output_stdout", .str result.stdout)]),
                        fs4, some env.htmlPath, some env.pdfPath⟩
                    else
                      some ⟨.ok (.fileResp 200 "application/pdf"
                          (fs4.read env.pdfPath) true "converted.pdf"),
                        fs4, some env.htmlPath, some env.pdfPath⟩
                | _ =>
                  some ⟨.error (.typeError "write() argument must be str"),
                    fs2, some env.htmlPath, some env.pdfPath⟩

/-- One arm of the `finally` block (lines 149-155 and 158-164): if the path
variable is set and the file exists, try to remove it; an `OSError` is
logged and swallowed. -/
def cleanupPath (removeFails : String → Bool) (p? : Option String) (fs : FS) :
    FS × List LogEntry :=
  match p? with
  | none => (fs, [])
  | some p =>
    if fs.pathExists p then
      if removeFails p then (fs, [.cleanupError p])
      else (fs.remove p, [])
    else (fs, [])

/-- The full handler `convert_html_to_pdf` (lines 13-167): run the `try`
body; a raised exception is caught at line 134, its traceback logged, and a
generic 500 returned (line 142); then the `finally` block removes both
scratch files. Returns `none` when the request blocks forever inside the
subprocess call. -/
def convert_html_to_pdf (env : Env) (body : RequestBody) (fs0 : FS) :
    Option (Response × FS × List LogEntry) :=
  match tryBody env body fs0 with
  | none => none
  | some tr =>
    let resp : Response := match tr.result with
      | .ok r => r
      | .error e => .jsonResp 500
          [("error", .str ("An internal server error occurred: " ++ e.message))]
    let exLog : List LogEntry := match tr.result with
      | .ok _ => []
      | .error e => [.tracebackPrinted e]
    let c1 := cleanupPath env.removeFails tr.tempHtml tr.fs
    let c2 := cleanupPath env.removeFails tr.tempPdf c1.1
    some (resp, c2.1, exLog ++ c1.2 ++ c2.2)

/-- A request body whose JSON payload is an object with a single `html`
field, the shape the endpoint documents. -/
def reqHtml (j : Json) : RequestBody := .json (.obj [("html", j)])

/-- Effect of a terminating renderer on the output path: the bytes it wrote,
if any. -/
def applyWrite (fs : FS) (p : String) (w : Option (List Nat)) : FS :=
  match w with
  | some bs => fs.write p bs
  | none => fs

/-- The filesystem right after staging (lines 48-59): both scratch files
created by `mkstemp` and the HTML written to the input slot. -/
def stagedFS (env : Env) (s : String) (fs0 : FS) : FS :=
  ((fs0.write env.htmlPath []).write env.pdfPath []).write env.htmlPath (encodeUtf8 s)

/-- The verdict of the outcome classification, as the specification names
it: `Success`, `RenderFailed`, or `EmptyOutput` (section 4.3). -/
inductive ConversionResult where
  | success (payload : List Nat)
  | renderFailed (stderr stdout : String)
  | emptyOutput (outputPath : String) (stderr stdout : String)

/-- The outcome-classification decision rule exactly as the specification
states it (section 4.3): nonzero exit is `RenderFailed`; a missing or
zero-size artifact is `EmptyOutput`; otherwise `Success` with the bytes
read from the output path. Stated from the spec for comparison with the
handler. -/
def classify (r : RenderOutcome) (fs : FS) (outputPath : String) : ConversionResult :=
  if r.returncode != 0 then .renderFailed r.stderr r.stdout
  else if !(fs.pathExists outputPath) || fs.getsize outputPath == 0 then
    .emptyOutput outputPath r.stderr r.stdout
  else .success (fs.read outputPath)

/-- How the handler renders each classification verdict as an HTTP response
(lines 100-132). -/
def verdictResponse : ConversionResult → Response
  | .success payload => .fileResp 200 "application/pdf" payload true "converted.pdf"
  | .renderFailed stderr stdout => .jsonResp 500
      [("error", .str "PDF conversion failed"),
       ("details", .str stderr),
       ("command_output", .str stdout)]
  | .emptyOutput p stderr stdout => .jsonResp 500
      [("error", .str "PDF conversion command succeeded, but output file is missing or empty"),
       ("details", .str ("Output file path: " ++ p)),
       ("command_output_stderr", .str stderr),
       ("command_output_stdout", .str stdout)]

/-- A five-byte PDF payload (the bytes of the `%PDF-` signature) used as a
concrete renderer output. -/
def pdfBytes : List Nat := [37, 80, 68, 70, 45]

/-- A concrete environment: fresh scratch paths, a renderer that terminates
with exit code 0 and writes `pdfBytes`, and removals that succeed. -/
def env0 : Env :=
  { htmlPath := "/tmp/tmp_in.html", pdfPath := "/tmp/tmp_out.pdf",
    renderer := .terminates ⟨0, "", ""⟩ (some pdfBytes),
    removeFails := fun _ => false }

/-- Same environment with a renderer that hangs forever. -/
def envHang : Env := { env0 with renderer := .hangs }

/-- Same environment with a renderer that exits nonzero and writes nothing. -/
def envFail : Env :=
  { env0 with renderer := .terminates ⟨1, "Loading pages", "Exit with code 1"⟩ none }

/-- Same environment with a renderer that exits 0 but writes nothing, so
the output artifact stays the zero-byte file `mkstemp` created. -/
def envEmptyOut : Env := { env0 with renderer := .terminates ⟨0, "Done", ""⟩ none }

end HtmlToPdf

namespace HtmlToPdf

theorem runSubprocess_terminates (call : SubprocessCall) (r : RenderOutcome)
    (w : Option (List Nat)) (fs : FS) (outPath : String) :
    runSubprocess call (.terminates r w) fs outPath = some (r, applyWrite fs outPath w) := by
  cases w <;> rfl

theorem FS.pathExists_remove (fs : FS) (p q : String) :
    (fs.remove p).pathExists q = (!(p == q) && fs.pathExists q) := by
  induction fs with
  | nil => simp [FS.remove, FS.pathExists]
  | cons e fs ih =>
      unfold FS.remove FS.pathExists at *
      simp only [List.filter_cons]
      by_cases hep : e.1 = p
      · have hb : (e.1 != p) = false := by simp [hep]
        by_cases hpq : p = q
        · have h1 : (p == q) = true := by simp [hpq]
          have h2 : (e.1 == q) = true := by simp [hep, hpq]
          simp [hb, h1, h2, ih, List.any_cons]
        · have h1 : (p == q) = false := by simp [hpq]
          have h2 : (e.1 == q) = false := by simp [hep, hpq]
          simp [hb, h1, h2, ih, List.any_cons]
      · have hb : (e.1 != p) = true := by simp [hep]
        by_cases hpq : p = q
        · have h1 : (p == q) = true := by simp [hpq]
          have h2 : (e.1 == q) = false := by subst hpq; simp [hep]
          simp [hb, h1, h2, ih, List.any_cons]
        · have h1 : (p == q) = false := by simp [hpq]
          simp [hb, h1, ih, List.any_cons]

theorem FS.pathExists_write (fs : FS) (p : String) (c : List Nat) (q : String) :
    (fs.write p c).pathExists q = ((p == q) || fs.pathExists q) := by
  have h := FS.pathExists_remove fs p q
  unfold FS.write FS.pathExists at *
  simp only [List.any_cons]
  rw [h]
  cases hpq : (p == q) <;> simp

theorem FS.read_write_self (fs : FS) (p : String) (c : List Nat) :
    (fs.write p c).read p = c := by
  unfold FS.write FS.read
  simp [List.find?_cons_of_pos]

theorem FS.getsize_write_self (fs : FS) (p : String) (c : List Nat) :
    (fs.write p c).getsize p = c.length := by
  unfold FS.getsize
  rw [FS.read_write_self]

theorem tryBody_str (env : Env) (s : String) (fs0 : FS) (r : RenderOutcome)
    (w : Option (List Nat)) (hs : s.isEmpty = false) (hr : env.renderer = .terminates r w) :
    tryBody env (reqHtml (.str s)) fs0 =
      (let fs4 := applyWrite (stagedFS env s fs0) env.pdfPath w
       if r.returncode != 0 then
        some ⟨.ok (.jsonResp 500
          [("error", .str "PDF conversion failed"),
           ("details", .str r.stderr),
           ("command_output", .str r.stdout)]),
          fs4, some env.htmlPath, some env.pdfPath⟩
       else if !(fs4.pathExists env.pdfPath) || fs4.getsize env.pdfPath == 0 then
        some ⟨.ok (.jsonResp 500
          [("error", .str
             "PDF conversion command succeeded, but output file is missing or empty"),
           ("details", .str ("Output file path: " ++ env.pdfPath)),
           ("command_output_stderr", .str r.stderr),
           ("command_output_stdout", .str r.stdout)]),
          fs4, some env.htmlPath, some env.pdfPath⟩
       else
        some ⟨.ok (.fileResp 200 "application/pdf"
            (fs4.read env.pdfPath) true "converted.pdf"),
          fs4, some env.htmlPath, some env.pdfPath⟩) := by
  simp [tryBody, reqHtml, getJson, Json.isTruthy, pyContainsHtmlKey, pyGetHtml, pySlice200,
    hs, hr, runSubprocess_terminates, stagedFS]

theorem pathExists_of_runSubprocess (call : SubprocessCall) (beh : RendererBehavior)
    (fs : FS) (outPath : String) (r : RenderOutcome) (fs4 : FS) (p : String)
    (hex : fs.pathExists p = true)
    (heq : runSubprocess call beh fs outPath = some (r, fs4)) :
    fs4.pathExists p = true := by
  unfold runSubprocess at heq
  split at heq
  · split at heq <;> simp at heq
  · split at heq <;>
      simp only [Option.some.injEq, Prod.mk.injEq] at heq
    · obtain ⟨h1, h2⟩ := heq
      subst h2
      simp [FS.pathExists_write, hex]
    · obtain ⟨h1, h2⟩ := heq
      subst h2
      exact hex

theorem tryBody_shape (env : Env) (body : RequestBody) (fs0 : FS) (tr : TryResult)
    (h : tryBody env body fs0 = some tr) :
    (tr.tempHtml = some env.htmlPath ∧ tr.tempPdf = some env.pdfPath ∧
      tr.fs.pathExists env.htmlPath = true)
    ∨ (tr.tempHtml = none ∧ tr.tempPdf = none ∧ tr.fs = fs0) := by
  cases body with
  | noJson =>
      injection h with h
      subst h
      right
      exact ⟨rfl, rfl, rfl⟩
  | malformed =>
      injection h with h
      subst h
      right
      exact ⟨rfl, rfl, rfl⟩
  | json d =>
      cases hren : env.renderer with
      | hangs =>
          simp only [tryBody, getJson, Option.getD, hren, runSubprocess, rendererCall] at h
          repeat' split at h
          all_goals try (injection h with h; subst h; right; exact ⟨rfl, rfl, rfl⟩)
          all_goals try exact Option.noConfusion h
          all_goals (injection h with h; subst h; left; refine ⟨rfl, rfl, ?_⟩; simp [applyWrite, FS.pathExists_write])
      | terminates r w =>
          cases w with
          | some bs =>
              simp only [tryBody, getJson, Option.getD, hren, runSubprocess, rendererCall] at h
              repeat' split at h
              all_goals try (injection h with h; subst h; right; exact ⟨rfl, rfl, rfl⟩)
              all_goals (injection h with h; subst h; left; refine ⟨rfl, rfl, ?_⟩; simp [applyWrite, FS.pathExists_write])
          | none =>
              simp only [tryBody, getJson, Option.getD, hren, runSubprocess, rendererCall] at h
              repeat' split at h
              all_goals try (injection h with h; subst h; right; exact ⟨rfl, rfl, rfl⟩)
              all_goals (injection h with h; subst h; left; refine ⟨rfl, rfl, ?_⟩; simp [applyWrite, FS.pathExists_write])

theorem tryBody_removeFails (env : Env) (g : String → Bool) (body : RequestBody) (fs0 : FS) :
    tryBody { env with removeFails := g } body fs0 = tryBody env body fs0 := rfl

theorem tryBody_isSome_of_terminates (env : Env) (body : RequestBody) (fs0 : FS)
    (r : RenderOutcome) (w : Option (List Nat)) (hr : env.renderer = .terminates r w) :
    (tryBody env body fs0).isSome = true := by
  cases body with
  | noJson => rfl
  | malformed => rfl
  | json d =>
      cases w with
      | some bs =>
          simp only [tryBody, getJson, Option.getD, hr, runSubprocess, rendererCall]
          repeat' split
          all_goals rfl
      | none =>
          simp only [tryBody, getJson, Option.getD, hr, runSubprocess, rendererCall]
          repeat' split
          all_goals rfl

theorem convert_str_response (env : Env) (s : String) (fs0 : FS) (r : RenderOutcome)
    (w : Option (List Nat)) (hs : s.isEmpty = false) (hr : env.renderer = .terminates r w) :
    (convert_html_to_pdf env (reqHtml (.str s)) fs0).map (fun x => x.1) =
      some (verdictResponse
        (classify r (applyWrite (stagedFS env s fs0) env.pdfPath w) env.pdfPath)) := by
  unfold convert_html_to_pdf
  rw [tryBody_str env s fs0 r w hs hr]
  simp only [classify, verdictResponse]
  split_ifs <;> simp

end HtmlToPdf

namespace HtmlToPdf

theorem cleanupPath_not_exists (g : String → Bool) (p : String) (fs : FS)
    (hg : g p = false) : ((cleanupPath g (some p) fs).1).pathExists p = false := by
  cases hex : fs.pathExists p <;> simp [cleanupPath, hex, hg, FS.pathExists_remove]

theorem cleanupPath_mono (g : String → Bool) (p? : Option String) (fs : FS) (q : String)
    (h : fs.pathExists q = false) : ((cleanupPath g p? fs).1).pathExists q = false := by
  cases p? with
  | none => exact h
  | some p =>
      simp only [cleanupPath]
      split_ifs <;> simp [FS.pathExists_remove, h]

theorem cleanupPath_logs_failure (g : String → Bool) (p : String) (fs : FS)
    (hex : fs.pathExists p = true) (hg : g p = true) :
    cleanupPath g (some p) fs = (fs, [.cleanupError p]) := by
  simp [cleanupPath, hex, hg]

theorem convert_resp_removeFails (env : Env) (g : String → Bool) (body : RequestBody)
    (fs0 : FS) :
    (convert_html_to_pdf { env with removeFails := g } body fs0).map (fun x => x.1) =
      (convert_html_to_pdf env body fs0).map (fun x => x.1) := by
  unfold convert_html_to_pdf
  rw [tryBody_removeFails]
  cases htr : tryBody env body fs0 <;> simp

theorem convert_fs_clean (env : Env) (body : RequestBody) (fs0 : FS)
    (resp : Response) (fs' : FS) (log : List LogEntry)
    (hg : ∀ p, env.removeFails p = false)
    (hfresh1 : fs0.pathExists env.htmlPath = false)
    (hfresh2 : fs0.pathExists env.pdfPath = false)
    (h : convert_html_to_pdf env body fs0 = some (resp, fs', log)) :
    fs'.pathExists env.htmlPath = false ∧ fs'.pathExists env.pdfPath = false := by
  unfold convert_html_to_pdf at h
  cases htr : tryBody env body fs0 with
  | none => rw [htr] at h; exact absurd h (by simp)
  | some tr =>
      rw [htr] at h
      simp only [Option.some.injEq, Prod.mk.injEq] at h
      obtain ⟨h1, h2, h3⟩ := h
      subst h2
      rcases tryBody_shape env body fs0 tr htr with ⟨ha, hb, hc⟩ | ⟨ha, hb, hc⟩
      · rw [ha, hb]
        constructor
        · exact cleanupPath_mono _ _ _ _
            (cleanupPath_not_exists env.removeFails env.htmlPath tr.fs (hg _))
        · exact cleanupPath_not_exists env.removeFails env.pdfPath _ (hg _)
      · rw [ha, hb, hc]
        exact ⟨hfresh1, hfresh2⟩

theorem convert_logs_cleanup_failure (env : Env) (body : RequestBody) (fs0 : FS)
    (resp : Response) (fs' : FS) (log : List LogEntry) (tr : TryResult)
    (h : convert_html_to_pdf env body fs0 = some (resp, fs', log))
    (htr : tryBody env body fs0 = some tr)
    (halloc : tr.tempHtml = some env.htmlPath)
    (hfail : env.removeFails env.htmlPath = true) :
    LogEntry.cleanupError env.htmlPath ∈ log := by
  rcases tryBody_shape env body fs0 tr htr with ⟨ha, hb, hc⟩ | ⟨ha, hb, hc⟩
  · unfold convert_html_to_pdf at h
    rw [htr] at h
    simp only [ha, hb, cleanupPath_logs_failure env.removeFails env.htmlPath tr.fs hc hfail,
      Option.some.injEq, Prod.mk.injEq] at h
    obtain ⟨h1, h2, h3⟩ := h
    subst h3
    simp
  · rw [ha] at halloc
    exact absurd halloc (by simp)

theorem convert_noJson (env : Env) (fs0 : FS) :
    convert_html_to_pdf env .noJson fs0 =
      some (.jsonResp 400
        [("error", .str "Invalid request, JSON body with \x27html\x27 key is required")],
        fs0, []) := rfl

theorem convert_malformed (env : Env) (fs0 : FS) :
    convert_html_to_pdf env .malformed fs0 =
      some (.jsonResp 500
        [("error", .str
          "An internal server error occurred: 400 Bad Request: Failed to decode JSON object")],
        fs0, [.tracebackPrinted (.badRequest "400 Bad Request: Failed to decode JSON object")]) := rfl

theorem convert_falsy_data (env : Env) (fs0 : FS) (d : Json) (ht : d.isTruthy = false) :
    convert_html_to_pdf env (.json d) fs0 =
      some (.jsonResp 400
        [("error", .str "Invalid request, JSON body with \x27html\x27 key is required")],
        fs0, []) := by
  simp [convert_html_to_pdf, tryBody, getJson, ht, cleanupPath]

theorem convert_missing_key (env : Env) (fs0 : FS) (d : Json) (ht : d.isTruthy = true)
    (hm : pyContainsHtmlKey d = .ok false) :
    convert_html_to_pdf env (.json d) fs0 =
      some (.jsonResp 400
        [("error", .str "Invalid request, JSON body with \x27html\x27 key is required")],
        fs0, []) := by
  simp [convert_html_to_pdf, tryBody, getJson, ht, hm, cleanupPath]

theorem isTruthy_obj_cons (kv : String × Json) (kvs : List (String × Json)) :
    (Json.obj (kv :: kvs)).isTruthy = true := rfl

theorem convert_falsy_html (env : Env) (fs0 : FS) (j : Json) (hf : j.isTruthy = false) :
    convert_html_to_pdf env (reqHtml j) fs0 =
      some (.jsonResp 400
        [("error", .str "\x27html\x27 key is present but value is empty or null")],
        fs0, []) := by
  simp [convert_html_to_pdf, tryBody, reqHtml, getJson, isTruthy_obj_cons, pyContainsHtmlKey,
    pyGetHtml, hf, cleanupPath]

theorem convert_of_tryBody_error (env : Env) (body : RequestBody) (fs0 : FS)
    (tr : TryResult) (e : PyExn)
    (htr : tryBody env body fs0 = some tr) (he : tr.result = .error e) :
    ∃ fs' log, convert_html_to_pdf env body fs0 =
        some (.jsonResp 500
          [("error", .str ("An internal server error occurred: " ++ e.message))], fs', log)
      ∧ LogEntry.tracebackPrinted e ∈ log := by
  unfold convert_html_to_pdf
  rw [htr]
  simp only [he]
  exact ⟨_, _, rfl, by simp⟩

theorem tryBody_str_hangs (env : Env) (s : String) (fs0 : FS)
    (hs : s.isEmpty = false) (hr : env.renderer = .hangs) :
    tryBody env (reqHtml (.str s)) fs0 = none := by
  simp [tryBody, reqHtml, getJson, Json.isTruthy, pyContainsHtmlKey, pyGetHtml, pySlice200,
    hs, hr, runSubprocess, rendererCall]

theorem convert_str_status_ne_400 (env : Env) (s : String) (fs0 : FS)
    (out : Response × FS × List LogEntry) (hs : s.isEmpty = false)
    (h : convert_html_to_pdf env (reqHtml (.str s)) fs0 = some out) :
    out.1.status ≠ 400 := by
  cases hren : env.renderer with
  | hangs =>
      unfold convert_html_to_pdf at h
      rw [tryBody_str_hangs env s fs0 hs hren] at h
      exact absurd h (by simp)
  | terminates r w =>
      have hmap := convert_str_response env s fs0 r w hs hren
      rw [h] at hmap
      simp at hmap
      rw [hmap]
      cases hcl : classify r (applyWrite (stagedFS env s fs0) env.pdfPath w) env.pdfPath <;>
        simp [verdictResponse, Response.status]

theorem tryBody_num (env : Env) (fs0 : FS) (n : Int) (hn : (n != 0) = true) :
    tryBody env (reqHtml (.num n)) fs0 =
      some ⟨.error (.typeError "\x27int\x27 object is not subscriptable"), fs0, none, none⟩ := by
  simp [tryBody, reqHtml, getJson, isTruthy_obj_cons, pyContainsHtmlKey, pyGetHtml,
    pySlice200, Json.isTruthy, hn]

theorem tryBody_bool_true (env : Env) (fs0 : FS) :
    tryBody env (reqHtml (.bool true)) fs0 =
      some ⟨.error (.typeError "\x27bool\x27 object is not subscriptable"), fs0, none, none⟩ := rfl

theorem tryBody_obj (env : Env) (fs0 : FS) (kv : String × Json) (kvs : List (String × Json)) :
    tryBody env (reqHtml (.obj (kv :: kvs))) fs0 =
      some ⟨.error (.typeError "unhashable type: \x27slice\x27"), fs0, none, none⟩ := rfl

theorem tryBody_arr (env : Env) (fs0 : FS) (x : Json) (xs : List Json) :
    tryBody env (reqHtml (.arr (x :: xs))) fs0 =
      some ⟨.error (.typeError "write() argument must be str"),
        (fs0.write env.htmlPath []).write env.pdfPath [],
        some env.htmlPath, some env.pdfPath⟩ := rfl

end HtmlToPdf

namespace HtmlToPdf

/-- C1: the claim says every renderer invocation is bounded by a timeout,
on expiry the process is terminated and the request answered with a
distinct RenderTimeout failure. The code contradicts this: the
`subprocess.run` call at line 90 passes no timeout keyword, so the call
descriptor carries `timeout = none` and a hanging renderer blocks the
request forever (the handler never produces a response). -/
theorem render_call_has_no_timeout :
    (rendererCall "/tmp/tmp_in.html" "/tmp/tmp_out.pdf").timeout = none ∧
    convert_html_to_pdf envHang (reqHtml (.str "<p>hi</p>")) [] = none :=
  ⟨rfl, rfl⟩

/-- C2: for every completed renderer invocation on a valid request, the
handler response is exactly the rendering of the specification
classification rule applied in order: nonzero exit is RenderFailed with
stderr and stdout, else a missing or zero-size artifact is EmptyOutput
with the output path, stderr and stdout, else Success with the bytes read
from the output path. -/
theorem outcome_classification (env : Env) (s : String) (fs0 : FS) (r : RenderOutcome)
    (w : Option (List Nat)) (hs : String.isEmpty s = false)
    (hr : Env.renderer env = .terminates r w) :
    (convert_html_to_pdf env (reqHtml (.str s)) fs0).map (fun x => x.1) =
      some (verdictResponse
        (classify r (applyWrite (stagedFS env s fs0) env.pdfPath w) env.pdfPath)) :=
  convert_str_response env s fs0 r w hs hr

/-- Witness for C2 at a concrete input: a valid request against a renderer
that exits 0 and writes the PDF signature bytes. -/
theorem outcome_classification_witness :
    String.isEmpty "<p>hi</p>" = false ∧
    (convert_html_to_pdf env0 (reqHtml (.str "<p>hi</p>")) []).map (fun x => x.1) =
      some (verdictResponse
        (classify ⟨0, "", ""⟩
          (applyWrite (stagedFS env0 "<p>hi</p>" []) env0.pdfPath (some pdfBytes))
          env0.pdfPath)) :=
  ⟨rfl, outcome_classification env0 "<p>hi</p>" [] ⟨0, "", ""⟩ (some pdfBytes) rfl rfl⟩

/-- C3: cleanup of the two scratch files is unconditional. When removal
succeeds, neither scratch path remains on disk after any request; the
HTTP response never depends on whether removal fails; and a removal
failure on an existing scratch file is logged as a cleanup error. -/
theorem cleanup_unconditional (env : Env) (g : String → Bool) (body : RequestBody) (fs0 : FS)
    (hfresh1 : FS.pathExists fs0 env.htmlPath = false)
    (hfresh2 : FS.pathExists fs0 env.pdfPath = false) :
    (∀ resp fs' log,
        convert_html_to_pdf { env with removeFails := fun _ => false } body fs0 =
          some (resp, fs', log) →
        fs'.pathExists env.htmlPath = false ∧ fs'.pathExists env.pdfPath = false)
    ∧ ((convert_html_to_pdf { env with removeFails := g } body fs0).map (fun x => x.1)
        = (convert_html_to_pdf env body fs0).map (fun x => x.1))
    ∧ (∀ resp fs' log tr,
        convert_html_to_pdf env body fs0 = some (resp, fs', log) →
        tryBody env body fs0 = some tr → tr.tempHtml = some env.htmlPath →
        env.removeFails env.htmlPath = true →
        LogEntry.cleanupError env.htmlPath ∈ log) := by
  refine ⟨?_, convert_resp_removeFails env g body fs0, ?_⟩
  · intro resp fs' log h
    exact convert_fs_clean { env with removeFails := fun _ => false } body fs0 resp fs' log
      (fun p => rfl) hfresh1 hfresh2 h
  · intro resp fs' log tr h htr halloc hfail
    exact convert_logs_cleanup_failure env body fs0 resp fs' log tr h htr halloc hfail

/-- Witness for C3 at a concrete input: fresh scratch paths on an empty
filesystem, a removal oracle that always fails, and a valid request. -/
theorem cleanup_unconditional_witness :
    FS.pathExists [] env0.htmlPath = false ∧
    ((convert_html_to_pdf { env0 with removeFails := fun _ => true } (reqHtml (.str "x")) []).map
        (fun x => x.1)
      = (convert_html_to_pdf env0 (reqHtml (.str "x")) []).map (fun x => x.1)) :=
  ⟨rfl, (cleanup_unconditional env0 (fun _ => true) (reqHtml (.str "x")) [] rfl rfl).2.1⟩

/-- Counterexample for C4: a malformed JSON body makes `request.get_json`
raise BadRequest, which the catch-all `except` clause converts into an
HTTP 500 internal-error response, not the HTTP 400 client error the claim
states. -/
theorem malformed_body_answered_500 :
    convert_html_to_pdf env0 .malformed [] =
      some (.jsonResp 500
        [("error", .str
          "An internal server error occurred: 400 Bad Request: Failed to decode JSON object")],
        [], [.tracebackPrinted (.badRequest "400 Bad Request: Failed to decode JSON object")]) ∧
    (convert_html_to_pdf env0 .malformed []).map (fun x => x.1.status) = some 500 :=
  ⟨rfl, rfl⟩

/-- C4 (amended): a request with no JSON content, a falsy JSON body, or a
truthy JSON body without an html member is answered HTTP 400 with an
error field; a malformed JSON body instead raises during parsing and is
answered HTTP 500 by the internal-error path. In every case the
filesystem is returned unchanged: no scratch files are allocated. -/
theorem validation_rejections (env : Env) (fs0 : FS) :
    (convert_html_to_pdf env .noJson fs0 =
      some (.jsonResp 400
        [("error", .str "Invalid request, JSON body with \x27html\x27 key is required")],
        fs0, []))
    ∧ (∀ d, Json.isTruthy d = false →
        convert_html_to_pdf env (.json d) fs0 =
          some (.jsonResp 400
            [("error", .str "Invalid request, JSON body with \x27html\x27 key is required")],
            fs0, []))
    ∧ (∀ d, Json.isTruthy d = true → pyContainsHtmlKey d = .ok false →
        convert_html_to_pdf env (.json d) fs0 =
          some (.jsonResp 400
            [("error", .str "Invalid request, JSON body with \x27html\x27 key is required")],
            fs0, []))
    ∧ (convert_html_to_pdf env .malformed fs0 =
        some (.jsonResp 500
          [("error", .str
            "An internal server error occurred: 400 Bad Request: Failed to decode JSON object")],
          fs0, [.tracebackPrinted (.badRequest "400 Bad Request: Failed to decode JSON object")])) :=
  ⟨convert_noJson env fs0,
   fun d ht => convert_falsy_data env fs0 d ht,
   fun d ht hm => convert_missing_key env fs0 d ht hm,
   convert_malformed env fs0⟩

/-- Witness for C4 (amended) at concrete inputs: an absent body, a falsy
body, and a truthy object without the html key. -/
theorem validation_rejections_witness :
    Json.isTruthy (.num 0) = false ∧
    Json.isTruthy (.obj [("foo", .num 1)]) = true ∧
    pyContainsHtmlKey (.obj [("foo", .num 1)]) = .ok false ∧
    convert_html_to_pdf env0 .noJson [] =
      some (.jsonResp 400
        [("error", .str "Invalid request, JSON body with \x27html\x27 key is required")],
        [], []) ∧
    convert_html_to_pdf env0 (.json (.num 0)) [] =
      some (.jsonResp 400
        [("error", .str "Invalid request, JSON body with \x27html\x27 key is required")],
        [], []) ∧
    convert_html_to_pdf env0 (.json (.obj [("foo", .num 1)])) [] =
      some (.jsonResp 400
        [("error", .str "Invalid request, JSON body with \x27html\x27 key is required")],
        [], []) :=
  ⟨rfl, rfl, rfl,
   (validation_rejections env0 []).1,
   (validation_rejections env0 []).2.1 (.num 0) rfl,
   (validation_rejections env0 []).2.2.1 (.obj [("foo", .num 1)]) rfl rfl⟩

end HtmlToPdf

namespace HtmlToPdf

/-- Counterexample for C5: the unexpected-internal-fault response carries
only an error field. Its JSON field names are exactly the singleton list
with "error": there is no details field, contradicting the claim that
every server-error response exposes one. -/
theorem internal_error_response_is_error_only :
    (convert_html_to_pdf env0 .malformed []).map (fun x => (x.1.status, x.1.fieldNames)) =
      some (500, ["error"]) := rfl

/-- C5 (amended): renderer-failure responses are HTTP 500 with error,
details holding the renderer stderr, and command_output holding its
stdout; empty-output responses are HTTP 500 with error, details holding
the output path, and the two streams under command_output_stderr and
command_output_stdout; the unexpected-internal-fault response is HTTP 500
with only an error field embedding the exception message. -/
theorem server_error_payloads :
    (∀ env s fs0 r w, String.isEmpty s = false → Env.renderer env = .terminates r w →
      (r.returncode != 0) = true →
      (convert_html_to_pdf env (reqHtml (.str s)) fs0).map (fun x => x.1) =
        some (.jsonResp 500
          [("error", .str "PDF conversion failed"),
           ("details", .str r.stderr),
           ("command_output", .str r.stdout)]))
    ∧ (∀ env s fs0 r w, String.isEmpty s = false → Env.renderer env = .terminates r w →
        (r.returncode != 0) = false →
        (!(applyWrite (stagedFS env s fs0) env.pdfPath w).pathExists env.pdfPath
          || (applyWrite (stagedFS env s fs0) env.pdfPath w).getsize env.pdfPath == 0) = true →
        (convert_html_to_pdf env (reqHtml (.str s)) fs0).map (fun x => x.1) =
          some (.jsonResp 500
            [("error", .str
               "PDF conversion command succeeded, but output file is missing or empty"),
             ("details", .str ("Output file path: " ++ env.pdfPath)),
             ("command_output_stderr", .str r.stderr),
             ("command_output_stdout", .str r.stdout)]))
    ∧ (∀ env body fs0 tr e, tryBody env body fs0 = some tr → TryResult.result tr = .error e →
        ∃ fs' log, convert_html_to_pdf env body fs0 =
          some (.jsonResp 500
            [("error", .str ("An internal server error occurred: " ++ e.message))], fs', log)) := by
  refine ⟨?_, ?_, ?_⟩
  · intro env s fs0 r w hs hr hrc
    rw [convert_str_response env s fs0 r w hs hr]
    simp [classify, verdictResponse, hrc]
  · intro env s fs0 r w hs hr hrc hempty
    rw [convert_str_response env s fs0 r w hs hr]
    simp [classify, verdictResponse, hrc, hempty]
  · intro env body fs0 tr e htr he
    obtain ⟨fs', log, hc, _⟩ := convert_of_tryBody_error env body fs0 tr e htr he
    exact ⟨fs', log, hc⟩

/-- Witness for C5 (amended) at concrete inputs: a renderer exiting 1, a
renderer exiting 0 that writes nothing, and a malformed body. -/
theorem server_error_payloads_witness :
    ((1 : Int) != 0) = true ∧
    (convert_html_to_pdf envFail (reqHtml (.str "x")) []).map (fun x => x.1) =
      some (.jsonResp 500
        [("error", .str "PDF conversion failed"),
         ("details", .str "Exit with code 1"),
         ("command_output", .str "Loading pages")]) ∧
    (convert_html_to_pdf envEmptyOut (reqHtml (.str "x")) []).map (fun x => x.1) =
      some (.jsonResp 500
        [("error", .str
           "PDF conversion command succeeded, but output file is missing or empty"),
         ("details", .str ("Output file path: " ++ envEmptyOut.pdfPath)),
         ("command_output_stderr", .str ""),
         ("command_output_stdout", .str "Done")]) ∧
    (∃ fs' log, convert_html_to_pdf env0 .malformed [] =
      some (.jsonResp 500
        [("error", .str ("An internal server error occurred: " ++
          PyExn.message (.badRequest "400 Bad Request: Failed to decode JSON object")))],
        fs', log)) :=
  ⟨rfl,
   server_error_payloads.1 envFail "x" [] ⟨1, "Loading pages", "Exit with code 1"⟩ none rfl rfl rfl,
   server_error_payloads.2.1 envEmptyOut "x" [] ⟨0, "Done", ""⟩ none rfl rfl rfl rfl,
   server_error_payloads.2.2 env0 .malformed []
     ⟨.error (.badRequest "400 Bad Request: Failed to decode JSON object"), [], none, none⟩
     (.badRequest "400 Bad Request: Failed to decode JSON object") rfl rfl⟩

/-- C6: a request that passes validation and whose renderer invocation is
classified as Success is answered HTTP 200 with mimetype application/pdf,
a body that is exactly the bytes of the produced output artifact, sent as
an attachment with the fixed download name converted.pdf. -/
theorem success_response (env : Env) (s : String) (fs0 : FS) (r : RenderOutcome)
    (bs : List Nat) (hs : String.isEmpty s = false)
    (hr : Env.renderer env = .terminates r (some bs)) (hrc : r.returncode = 0)
    (hbs : bs ≠ []) :
    (convert_html_to_pdf env (reqHtml (.str s)) fs0).map (fun x => x.1) =
      some (.fileResp 200 "application/pdf" bs true "converted.pdf") := by
  rw [convert_str_response env s fs0 r (some bs) hs hr]
  have h1 : applyWrite (stagedFS env s fs0) env.pdfPath (some bs) =
      (stagedFS env s fs0).write env.pdfPath bs := rfl
  simp [classify, verdictResponse, h1, hrc, FS.pathExists_write, FS.getsize_write_self,
    FS.read_write_self, hbs]

/-- Witness for C6 at a concrete input: minimal HTML against a renderer
that exits 0 and writes the PDF signature bytes. -/
theorem success_response_witness :
    String.isEmpty "<p>hi</p>" = false ∧ pdfBytes ≠ [] ∧
    (convert_html_to_pdf env0 (reqHtml (.str "<p>hi</p>")) []).map (fun x => x.1) =
      some (.fileResp 200 "application/pdf" pdfBytes true "converted.pdf") :=
  ⟨rfl, by simp [pdfBytes],
   success_response env0 "<p>hi</p>" [] ⟨0, "", ""⟩ pdfBytes rfl rfl rfl (by simp [pdfBytes])⟩

/-- Counterexample for C7: a whitespace-only html value is truthy in
Python, so it is not rejected. Against a hanging renderer the request
never returns (the renderer was invoked), and against a working renderer
it is answered 200, not 400. -/
theorem whitespace_html_not_rejected :
    convert_html_to_pdf envHang (reqHtml (.str " ")) [] = none ∧
    (convert_html_to_pdf env0 (reqHtml (.str " ")) []).map (fun x => x.1.status) = some 200 :=
  ⟨rfl, rfl⟩

/-- C7 (amended): an html value that is the empty string or null is
answered HTTP 400 with the empty-or-null error message, without touching
the filesystem; a non-empty string value, including whitespace-only
strings, is never answered 400. -/
theorem empty_html_rejection (env : Env) (fs0 : FS) :
    (convert_html_to_pdf env (reqHtml (.str "")) fs0 =
      some (.jsonResp 400
        [("error", .str "\x27html\x27 key is present but value is empty or null")], fs0, []))
    ∧ (convert_html_to_pdf env (reqHtml .null) fs0 =
      some (.jsonResp 400
        [("error", .str "\x27html\x27 key is present but value is empty or null")], fs0, []))
    ∧ (∀ s out, String.isEmpty s = false →
        convert_html_to_pdf env (reqHtml (.str s)) fs0 = some out →
        Response.status out.1 ≠ 400) :=
  ⟨convert_falsy_html env fs0 (.str "") rfl,
   convert_falsy_html env fs0 .null rfl,
   fun s out hs h => convert_str_status_ne_400 env s fs0 out hs h⟩

/-- Witness for C7 (amended) at concrete inputs: the empty string is
rejected with 400, and the whitespace-only string reaches the renderer
and is answered 200. -/
theorem empty_html_rejection_witness :
    (convert_html_to_pdf env0 (reqHtml (.str "")) [] =
      some (.jsonResp 400
        [("error", .str "\x27html\x27 key is present but value is empty or null")], [], []))
    ∧ String.isEmpty " " = false
    ∧ Response.status (Response.fileResp 200 "application/pdf" pdfBytes true "converted.pdf") ≠ 400 :=
  ⟨(empty_html_rejection env0 []).1, rfl,
   (empty_html_rejection env0 []).2.2 " "
     (.fileResp 200 "application/pdf" pdfBytes true "converted.pdf", [], []) rfl rfl⟩

end HtmlToPdf

namespace HtmlToPdf

/-- C8: every exception raised inside the try block is caught at the
handler boundary: the response is the generic HTTP 500 internal-error
JSON built from the exception message alone, the traceback is written to
the server log, and whenever the renderer terminates the handler always
produces a response (the process never crashes). -/
theorem internal_fault_boundary (env : Env) (body : RequestBody) (fs0 : FS) :
    (∀ tr e, tryBody env body fs0 = some tr → TryResult.result tr = .error e →
      ∃ fs' log, convert_html_to_pdf env body fs0 =
          some (.jsonResp 500
            [("error", .str ("An internal server error occurred: " ++ e.message))], fs', log)
        ∧ LogEntry.tracebackPrinted e ∈ log)
    ∧ (∀ r w, Env.renderer env = .terminates r w →
        (convert_html_to_pdf env body fs0).isSome = true) := by
  constructor
  · intro tr e htr he
    exact convert_of_tryBody_error env body fs0 tr e htr he
  · intro r w hr
    have hts := tryBody_isSome_of_terminates env body fs0 r w hr
    unfold convert_html_to_pdf
    cases htr : tryBody env body fs0 with
    | none => rw [htr] at hts; exact absurd hts (by simp)
    | some tr => simp

/-- Witness for C8 at a concrete input: the BadRequest raised by a
malformed body is caught, logged with its traceback, and answered with
the generic 500 response. -/
theorem internal_fault_boundary_witness :
    tryBody env0 .malformed [] =
      some ⟨.error (.badRequest "400 Bad Request: Failed to decode JSON object"), [], none, none⟩
    ∧ (∃ fs' log, convert_html_to_pdf env0 .malformed [] =
        some (.jsonResp 500
          [("error", .str ("An internal server error occurred: " ++
            PyExn.message (.badRequest "400 Bad Request: Failed to decode JSON object")))],
          fs', log)
        ∧ LogEntry.tracebackPrinted
            (.badRequest "400 Bad Request: Failed to decode JSON object") ∈ log)
    ∧ (convert_html_to_pdf env0 .malformed []).isSome = true :=
  ⟨rfl,
   (internal_fault_boundary env0 .malformed []).1
     ⟨.error (.badRequest "400 Bad Request: Failed to decode JSON object"), [], none, none⟩
     (.badRequest "400 Bad Request: Failed to decode JSON object") rfl rfl,
   (internal_fault_boundary env0 .malformed []).2 ⟨0, "", ""⟩ (some pdfBytes) rfl⟩

/-- Counterexample for C9: for the numeric html value 5 the TypeError is
raised by the debug slice of the value before any mkstemp call, so the
try block ends with both scratch-path variables still unset and the
filesystem untouched, contradicting the claim that scratch files are
allocated and the write raises. The request is still answered 500. -/
theorem numeric_html_allocates_nothing :
    tryBody env0 (reqHtml (.num 5)) [] =
      some ⟨.error (.typeError "\x27int\x27 object is not subscriptable"), [], none, none⟩
    ∧ (convert_html_to_pdf env0 (reqHtml (.num 5)) []).map (fun x => (x.1.status, x.2.1)) =
        some (500, []) :=
  ⟨rfl, rfl⟩

/-- C9 (amended): a truthy non-string html value passes validation and the
request is answered with an HTTP 500 internal-error response, never a
client error. (For numbers, booleans and objects the TypeError arises at
the debug slice before any scratch allocation; only for non-empty arrays
are scratch files allocated before the write raises.) -/
theorem truthy_nonstring_internal_error (env : Env) (fs0 : FS) (j : Json)
    (ht : Json.isTruthy j = true) (hns : ∀ s, j ≠ .str s) :
    ∃ m fs' log, convert_html_to_pdf env (reqHtml j) fs0 =
      some (.jsonResp 500
        [("error", .str ("An internal server error occurred: " ++ m))], fs', log) := by
  cases j with
  | null => simp [Json.isTruthy] at ht
  | str s => exact absurd rfl (hns s)
  | bool b =>
      cases b with
      | false => simp [Json.isTruthy] at ht
      | true =>
          obtain ⟨fs', log, hc, _⟩ := convert_of_tryBody_error env (reqHtml (.bool true)) fs0 _ _
            (tryBody_bool_true env fs0) rfl
          exact ⟨_, fs', log, hc⟩
  | num n =>
      have hn : (n != 0) = true := by simpa [Json.isTruthy] using ht
      obtain ⟨fs', log, hc, _⟩ := convert_of_tryBody_error env (reqHtml (.num n)) fs0 _ _
        (tryBody_num env fs0 n hn) rfl
      exact ⟨_, fs', log, hc⟩
  | arr xs =>
      cases xs with
      | nil => simp [Json.isTruthy] at ht
      | cons x xs =>
          obtain ⟨fs', log, hc, _⟩ := convert_of_tryBody_error env (reqHtml (.arr (x :: xs))) fs0 _ _
            (tryBody_arr env fs0 x xs) rfl
          exact ⟨_, fs', log, hc⟩
  | obj kvs =>
      cases kvs with
      | nil => simp [Json.isTruthy] at ht
      | cons kv kvs =>
          obtain ⟨fs', log, hc, _⟩ := convert_of_tryBody_error env (reqHtml (.obj (kv :: kvs))) fs0 _ _
            (tryBody_obj env fs0 kv kvs) rfl
          exact ⟨_, fs', log, hc⟩

/-- Witness for C9 (amended) at a concrete input: the non-empty array
value is answered with the generic 500 internal-error response. -/
theorem truthy_nonstring_internal_error_witness :
    Json.isTruthy (.arr [.num 1]) = true ∧
    (∃ m fs' log, convert_html_to_pdf env0 (reqHtml (.arr [.num 1])) [] =
      some (.jsonResp 500
        [("error", .str ("An internal server error occurred: " ++ m))], fs', log)) :=
  ⟨rfl, truthy_nonstring_internal_error env0 [] (.arr [.num 1]) rfl
    (fun _ h => Json.noConfusion h)⟩

/-- C10: every falsy html value, not only the empty string and null but
also false, zero, the empty array and the empty object, is answered with
the same HTTP 400 response carrying the empty-or-null error message, with
the filesystem unchanged (no scratch files) and for every renderer
behaviour (the renderer is never invoked). -/
theorem falsy_html_rejected (env : Env) (fs0 : FS) (j : Json)
    (hf : Json.isTruthy j = false) :
    convert_html_to_pdf env (reqHtml j) fs0 =
      some (.jsonResp 400
        [("error", .str "\x27html\x27 key is present but value is empty or null")],
        fs0, []) :=
  convert_falsy_html env fs0 j hf

/-- Witness for C10 at a concrete input: the value false is rejected with
the empty-or-null 400 response. -/
theorem falsy_html_rejected_witness :
    Json.isTruthy (.bool false) = false ∧
    convert_html_to_pdf env0 (reqHtml (.bool false)) [] =
      some (.jsonResp 400
        [("error", .str "\x27html\x27 key is present but value is empty or null")],
        [], []) :=
  ⟨rfl, falsy_html_rejected env0 [] (.bool false) rfl⟩

end HtmlToPdf
